import Mathlib

/-!
Verification development for the AR-Architecture-App pose-tracking and placement core.

The JavaScript sources are shallowly embedded here:
* `KalmanFilter.js` : scalar Kalman filter and the six-filter pose smoothing bank;
* `WebXREngine.js` : hit-test backend with the ±0.15 / −0.10 plane-confidence ramp;
* `AREngine.js` (the confidence-gated copy shipped in the repository) : visual ORB
  plane tracker with the same confidence hysteresis;
* `ARLocationEngine.js` (appended to `main.js`) : geodesic math and GPS tracking;
* `SceneManager.js` : ray–plane placement;
* the per-tick loop bodies of `main.js`.

JavaScript numbers are IEEE-754 doubles; the embedding uses `ℚ` for the discrete
confidence/filter arithmetic (the spec's decimal constants 0.15, 0.10, 0.5 are exact
rationals) and `ℝ` for the transcendental geodesic math. The constant `Math.PI` is
embedded as the rational printed by JavaScript for it.
-/

namespace ARApp

/-- The decimal printing of the IEEE-754 double `Math.PI`, used wherever the source
multiplies by `Math.PI / 180`. -/
def mathPI : ℚ := 3.141592653589793

/-- Degrees to radians, as the source writes `deg * (Math.PI / 180)`. -/
def degToRad (d : ℚ) : ℚ := d * (mathPI / 180)

/-! ## Scalar Kalman filter (`KalmanFilter.js`, class `KalmanFilter`) -/

/-- State of the scalar `KalmanFilter`: estimated value `x`, velocity `v`, the four
entries of the 2×2 covariance `P`, process noise `q`, measurement noise `r`, and the
fixed time step `dt`. -/
structure KFState where
  x : ℚ
  v : ℚ
  p00 : ℚ
  p01 : ℚ
  p10 : ℚ
  p11 : ℚ
  q : ℚ
  r : ℚ
  dt : ℚ
deriving Repr, DecidableEq

/-- The `KalmanFilter(processNoise, measurementNoise)` constructor:
`x = 0`, `v = 0`, `P = [[1,0],[0,1]]`, `dt = 1/30`. -/
def kfInit (processNoise measurementNoise : ℚ) : KFState :=
  { x := 0, v := 0, p00 := 1, p01 := 0, p10 := 0, p11 := 1,
    q := processNoise, r := measurementNoise, dt := 1 / 30 }

/-- `KalmanFilter.predict()`: `x += v*dt`; `P[0][0] += Q`; `P[1][1] += Q`. -/
def kfPredict (s : KFState) : KFState :=
  { s with x := s.x + s.v * s.dt, p00 := s.p00 + s.q, p11 := s.p11 + s.q }

/-- `KalmanFilter.update(measurement)`: innovation `y`, innovation covariance
`S = P[0][0] + R`, gain `K = [P[0][0]/S, P[1][0]/S]`, state and covariance correction. -/
def kfUpdate (measurement : ℚ) (s : KFState) : KFState :=
  let y := measurement - s.x
  let S := s.p00 + s.r
  let K0 := s.p00 / S
  let K1 := s.p10 / S
  { s with
    x := s.x + K0 * y
    v := s.v + K1 * y
    p00 := (1 - K0) * s.p00
    p01 := (1 - K0) * s.p01
    p10 := s.p10 - K1 * s.p00
    p11 := s.p11 - K1 * s.p01 }

/-- `KalmanFilter.filter(measurement)`: predict then update. -/
def kfFilter (measurement : ℚ) (s : KFState) : KFState :=
  kfUpdate measurement (kfPredict s)

/-- `KalmanFilter.reset()`. -/
def kfReset (s : KFState) : KFState :=
  { s with x := 0, v := 0, p00 := 1, p01 := 0, p10 := 0, p11 := 1 }

/-- The filter state after feeding the constant measurement `c` to a freshly
constructed filter `n` times via `filter(c)`. -/
def kfIterate (processNoise measurementNoise c : ℚ) (n : ℕ) : KFState :=
  (kfFilter c)^[n] (kfInit processNoise measurementNoise)

/-- Absolute error between the constant measurement `c` and the filter estimate after
`n` calls of `filter(c)`. -/
def kfErr (processNoise measurementNoise c : ℚ) (n : ℕ) : ℚ :=
  |c - (kfIterate processNoise measurementNoise c n).x|

/-- One call of `predict()` or `update(m)`, for reasoning about arbitrary
interleavings of the two methods. -/
inductive KFOp where
  | predict
  | update (m : ℚ)
deriving Repr, DecidableEq

/-- Run a sequence of `predict`/`update` calls on a filter state. -/
def kfRun (ops : List KFOp) (s : KFState) : KFState :=
  ops.foldl (fun t op => match op with
    | .predict => kfPredict t
    | .update m => kfUpdate m t) s

/-! ## Pose smoothing bank (`KalmanFilter.js`, class `PoseKalmanFilter`) -/

/-- A 3-component vector of JavaScript numbers. -/
structure Vec3 where
  x : ℚ
  y : ℚ
  z : ℚ
deriving Repr, DecidableEq

/-- A pose as produced by the visual tracker and consumed by `PoseKalmanFilter.filter`:
position and Euler rotation, plus the optional `planeCenter` and `confidence`
properties that `filter` copies through. -/
structure Pose where
  position : Vec3
  rotation : Vec3
  planeCenter : Option (ℚ × ℚ)
  confidence : Option ℚ
deriving Repr, DecidableEq

/-- State of `PoseKalmanFilter`: six independent scalar filters. -/
structure PoseKF where
  posX : KFState
  posY : KFState
  posZ : KFState
  rotX : KFState
  rotY : KFState
  rotZ : KFState
deriving Repr, DecidableEq

/-- The `PoseKalmanFilter(processNoise, measurementNoise)` constructor: position
filters use `(Q, R)`, rotation filters use `(Q*0.5, R*0.5)`. -/
def poseKFInit (processNoise measurementNoise : ℚ) : PoseKF :=
  { posX := kfInit processNoise measurementNoise
    posY := kfInit processNoise measurementNoise
    posZ := kfInit processNoise measurementNoise
    rotX := kfInit (processNoise * 0.5) (measurementNoise * 0.5)
    rotY := kfInit (processNoise * 0.5) (measurementNoise * 0.5)
    rotZ := kfInit (processNoise * 0.5) (measurementNoise * 0.5) }

/-- `PoseKalmanFilter.filter(pose)`: null in, null out; otherwise each scalar filter
smooths its axis and `planeCenter`/`confidence` are copied onto the result. -/
def poseKFFilter (bank : PoseKF) (pose : Option Pose) : Option Pose × PoseKF :=
  match pose with
  | none => (none, bank)
  | some p =>
    let fpx := kfFilter p.position.x bank.posX
    let fpy := kfFilter p.position.y bank.posY
    let fpz := kfFilter p.position.z bank.posZ
    let frx := kfFilter p.rotation.x bank.rotX
    let fry := kfFilter p.rotation.y bank.rotY
    let frz := kfFilter p.rotation.z bank.rotZ
    (some { position := ⟨fpx.x, fpy.x, fpz.x⟩
            rotation := ⟨frx.x, fry.x, frz.x⟩
            planeCenter := p.planeCenter
            confidence := p.confidence },
     { posX := fpx, posY := fpy, posZ := fpz, rotX := frx, rotY := fry, rotZ := frz })

/-! ## Hit-test backend (`WebXREngine.js`) -/

/-- Pose extracted from a WebXR hit-test transform: position, quaternion orientation,
and the confidence stamped on it by the engine. -/
structure XRPose where
  px : ℚ
  py : ℚ
  pz : ℚ
  ox : ℚ
  oy : ℚ
  oz : ℚ
  ow : ℚ
  confidence : ℚ
deriving Repr, DecidableEq

/-- The position/orientation data of a hit-test transform. -/
structure XRTransform where
  px : ℚ
  py : ℚ
  pz : ℚ
  ox : ℚ
  oy : ℚ
  oz : ℚ
  ow : ℚ
deriving Repr, DecidableEq

/-- One ranked hit-test result: `hit.getPose(refSpace)` may be null. -/
structure XRHit where
  pose : Option XRTransform
deriving Repr, DecidableEq

/-- The per-frame input of `WebXREngine.processFrame`: whether `getViewerPose`
returned a pose, and the ranked hit-test results. -/
structure XRFrame where
  viewerPoseOk : Bool
  hits : List XRHit
deriving Repr, DecidableEq

/-- Mutable state of `WebXREngine` relevant to tracking. -/
structure WebXRState where
  isSessionActive : Bool
  hasHitTestSource : Bool
  planeConfidence : ℚ
  isTracking : Bool
  currentPose : Option XRPose
deriving Repr, DecidableEq

/-- `TrackingResult` as emitted by `WebXREngine.processFrame`. -/
structure XRResult where
  isTracking : Bool
  hasFeatures : Bool
  featureCount : ℕ
  planeCount : ℕ
  pose : Option XRPose
deriving Repr, DecidableEq

/-- `WebXREngine.processFrame(frame)`. Early returns (inactive session, missing
frame, missing viewer pose) leave the engine state untouched; an empty hit list
decays `planeConfidence` by 0.1 (floored at 0); a hit with a pose ramps it by 0.15
(capped at 1) and reports `isTracking = planeConfidence > 0.5`. -/
def WebXREngine.processFrame (s : WebXRState) (frame : Option XRFrame) :
    XRResult × WebXRState :=
  let result0 : XRResult :=
    { isTracking := false, hasFeatures := false, featureCount := 0, planeCount := 0,
      pose := none }
  if ¬ s.isSessionActive then (result0, s) else
  match frame with
  | none => (result0, s)
  | some f =>
    if ¬ f.viewerPoseOk then (result0, s) else
    if ¬ s.hasHitTestSource then
      (result0, { s with isTracking := false })
    else
      match f.hits with
      | [] =>
        (result0, { s with planeConfidence := max 0 (s.planeConfidence - 0.1),
                           isTracking := false })
      | hit :: rest =>
        match hit.pose with
        | none => (result0, { s with isTracking := false })
        | some t =>
          let conf := min 1 (s.planeConfidence + 0.15)
          let pose : XRPose :=
            { px := t.px, py := t.py, pz := t.pz, ox := t.ox, oy := t.oy, oz := t.oz,
              ow := t.ow, confidence := conf }
          let tracking := decide ((0.5 : ℚ) < conf)
          let result : XRResult :=
            { isTracking := tracking, hasFeatures := true,
              featureCount := (hit :: rest).length, planeCount := (hit :: rest).length,
              pose := some pose }
          (result, { s with planeConfidence := conf, currentPose := some pose,
                            isTracking := tracking })

/-- The `WebXREngine` constructor state (no session yet, confidence 0). -/
def webXRInit : WebXRState :=
  { isSessionActive := false, hasHitTestSource := false, planeConfidence := 0,
    isTracking := false, currentPose := none }

/-- Fold `WebXREngine.processFrame` over a list of frames. -/
def WebXREngine.processMany (s : WebXRState) (frames : List (Option XRFrame)) :
    WebXRState :=
  frames.foldl (fun t f => (WebXREngine.processFrame t f).2) s

/-! ## Visual plane tracker (`AREngine.js`, the confidence-gated copy in the repo)

The OpenCV library calls (ORB detection, brute-force matching, RANSAC homography)
are external collaborators; their per-tick outcomes are inputs of the embedded
functions, while every decision the engine itself makes (thresholds, confidence
bookkeeping, buffer swaps) is embedded from the source. -/

/-- A correspondence between two feature observations across consecutive frames
(`this.trackedPoints` entries). -/
structure TrackedPointPair where
  prevX : ℚ
  prevY : ℚ
  currX : ℚ
  currY : ℚ
deriving Repr, DecidableEq

/-- The 3×3 homography returned by `cv.findHomography`, with the `Mat.empty()` flag. -/
structure Homography where
  entries : Fin 3 → Fin 3 → ℚ
  isEmpty : Bool

/-- Outcome of the `cv.findHomography` call inside `detectPlane`: the homography and
the RANSAC inlier count from the mask, or a thrown OpenCV error. -/
inductive FitOutcome where
  | ok (inlierCount : ℕ) (H : Homography)
  | exn

/-- `this.groundPlane`: homography, inlier count, plane center, confidence snapshot. -/
structure GroundPlane where
  homography : Homography
  inliers : ℕ
  center : ℚ × ℚ
  confidence : ℚ

/-- The tunable `this.settings` of the visual engine. -/
structure ARSettings where
  maxFeatures : ℕ
  ransacThreshold : ℚ
  minInliers : ℕ
deriving Repr, DecidableEq

/-- Settings defaults from the `AREngine` constructor. -/
def arSettingsDefault : ARSettings :=
  { maxFeatures := 500, ransacThreshold := 3.0, minInliers := 10 }

/-- IMU sample `{alpha, beta, gamma}` in degrees. -/
structure Imu where
  alpha : ℚ
  beta : ℚ
  gamma : ℚ
deriving Repr, DecidableEq

/-- Mutable state of `AREngine` relevant to tracking: the confidence accumulator, the
current ground-plane estimate, the tracked point pairs, the pose, the ping-pong frame
buffers (abstracted to their row counts and keypoint counts), and the camera
intrinsics `fx`, `fy` set from the frame width. -/
structure AREngineState where
  planeConfidence : ℚ
  groundPlane : Option GroundPlane
  detectedPlanes : List GroundPlane
  trackedPoints : List TrackedPointPair
  currentPose : Option Pose
  isTracking : Bool
  imuData : Imu
  settings : ARSettings
  frameAllocated : Bool
  frameRows : ℕ
  frameCols : ℕ
  prevFrameRows : ℕ
  prevKeypointsCount : ℕ
  fx : ℚ
  fy : ℚ

/-- The per-tick input of `AREngine.processFrame`: the video dimensions, the number
of ORB keypoints detected on this frame, the matcher outcome, the homography fit
outcome, and whether pose estimation threw. `matcherOk` is false when the brute-force
matcher threw or produced fewer than `minInliers` raw matches; `filteredPoints` are
the matches surviving the `max(3*minDist, 30)` ratio filter. -/
structure VisionTick where
  width : ℕ
  height : ℕ
  featureCount : ℕ
  matcherOk : Bool
  filteredPoints : List TrackedPointPair
  fit : FitOutcome
  poseExn : Bool

/-- `AREngine.calculatePlaneCenter()`: mean of the current points. -/
def calculatePlaneCenter (pts : List TrackedPointPair) : ℚ × ℚ :=
  if pts.length = 0 then (0, 0)
  else ((pts.map (·.currX)).sum / pts.length, (pts.map (·.currY)).sum / pts.length)

/-- `AREngine.trackFeatures()`: fails when either keypoint set is empty or the
matcher failed; otherwise stores the ratio-filtered point pairs and succeeds iff at
least `minInliers` of them survived. -/
def AREngine.trackFeatures (s : AREngineState) (t : VisionTick) :
    Bool × AREngineState :=
  if s.prevKeypointsCount = 0 ∨ t.featureCount = 0 then (false, s)
  else if ¬ t.matcherOk then (false, s)
  else
    (decide (s.settings.minInliers ≤ t.filteredPoints.length),
     { s with trackedPoints := t.filteredPoints })

/-- `AREngine.detectPlane()` of the confidence-gated engine: fewer than 8 points or a
failed/empty fit decays `planeConfidence` by 0.1 (floored at 0); a fit with at least
`minInliers` inliers and a nonempty homography ramps it by 0.15 (capped at 1), stores
the ground plane, and succeeds only when the confidence exceeds 0.5. -/
def AREngine.detectPlane (s : AREngineState) (fit : FitOutcome) :
    Bool × AREngineState :=
  if s.trackedPoints.length < 8 then
    (false, { s with planeConfidence := max 0 (s.planeConfidence - 0.1) })
  else
    match fit with
    | .exn => (false, { s with planeConfidence := max 0 (s.planeConfidence - 0.1) })
    | .ok inlierCount H =>
      if s.settings.minInliers ≤ inlierCount ∧ ¬ H.isEmpty then
        let conf := min 1 (s.planeConfidence + 0.15)
        let gp : GroundPlane :=
          { homography := H, inliers := inlierCount,
            center := calculatePlaneCenter s.trackedPoints, confidence := conf }
        (decide ((0.5 : ℚ) < conf),
         { s with planeConfidence := conf, groundPlane := some gp,
                  detectedPlanes := [gp] })
      else
        (false, { s with planeConfidence := max 0 (s.planeConfidence - 0.1) })

/-- `AREngine.estimatePose()`: fails without a ground plane, with an empty
homography, or when the decomposition throws; otherwise builds the pose from the
homography translation column, the fixed depth 3.0, and the IMU angles in radians. -/
def AREngine.estimatePose (s : AREngineState) (raiseExn : Bool) :
    Bool × AREngineState :=
  match s.groundPlane with
  | none => (false, s)
  | some gp =>
    if gp.homography.isEmpty then (false, s)
    else if raiseExn then (false, s)
    else
      let tx := gp.homography.entries 0 2 / s.fx
      let ty := gp.homography.entries 1 2 / s.fy
      let pose : Pose :=
        { position := ⟨tx, ty, 3.0⟩
          rotation := ⟨degToRad s.imuData.beta, degToRad s.imuData.gamma,
                       degToRad s.imuData.alpha⟩
          planeCenter := some gp.center
          confidence := some s.planeConfidence }
      (true, { s with currentPose := some pose })

/-- `TrackingResult` as emitted by `AREngine.processFrame`. -/
structure VisResult where
  isTracking : Bool
  hasFeatures : Bool
  featureCount : ℕ
  planeCount : ℕ
  pose : Option Pose
  imu : Imu

/-- The tracking chain inside `AREngine.processFrame`: when a previous frame with
keypoints exists, run `trackFeatures → detectPlane → estimatePose`; returns
`(result.isTracking, result.planeCount, result.pose, new state)`. -/
def AREngine.processCore (s1 : AREngineState) (t : VisionTick) :
    Bool × ℕ × Option Pose × AREngineState :=
  if 0 < s1.prevFrameRows ∧ 0 < s1.prevKeypointsCount then
    let tr := AREngine.trackFeatures s1 t
    if tr.1 then
      let dp := AREngine.detectPlane tr.2 t.fit
      if dp.1 then
        let ep := AREngine.estimatePose dp.2 t.poseExn
        (ep.1, dp.2.detectedPlanes.length, ep.2.currentPose, ep.2)
      else (false, dp.2.detectedPlanes.length, none, dp.2)
    else (false, 0, none, tr.2)
  else (false, 0, none, s1)

/-- `AREngine.processFrame(video)`: validates dimensions (early return leaves the
state untouched), reallocates buffers on a dimension change (which empties the
previous gray frame), detects features, and runs the tracking chain; the tick ends
by swapping the ping-pong buffers. -/
def AREngine.processFrame (s : AREngineState) (t : VisionTick) :
    VisResult × AREngineState :=
  let result0 : VisResult :=
    { isTracking := false, hasFeatures := false, featureCount := 0, planeCount := 0,
      pose := none, imu := s.imuData }
  if t.width = 0 ∨ t.height = 0 then (result0, s)
  else
    let s1 :=
      if ¬ s.frameAllocated ∨ s.frameRows ≠ t.height ∨ s.frameCols ≠ t.width then
        { s with frameAllocated := true, frameRows := t.height, frameCols := t.width,
                 prevFrameRows := 0, fx := (t.width : ℚ), fy := (t.width : ℚ) }
      else s
    let featureCount := t.featureCount
    let hasFeatures := decide (20 < featureCount)
    let core := AREngine.processCore s1 t
    let s3 := { core.2.2.2 with prevFrameRows := t.height,
                                prevKeypointsCount := featureCount,
                                isTracking := core.1 }
    ({ isTracking := core.1, hasFeatures := hasFeatures, featureCount := featureCount,
       planeCount := core.2.1, pose := core.2.2.1, imu := s3.imuData }, s3)

/-- The `AREngine` constructor state. -/
def arEngineInit : AREngineState :=
  { planeConfidence := 0, groundPlane := none, detectedPlanes := [],
    trackedPoints := [], currentPose := none, isTracking := false,
    imuData := ⟨0, 0, 0⟩, settings := arSettingsDefault, frameAllocated := false,
    frameRows := 0, frameCols := 0, prevFrameRows := 0, prevKeypointsCount := 0,
    fx := 1280, fy := 1280 }

/-- Fold `AREngine.processFrame` over a list of ticks. -/
def AREngine.processMany (s : AREngineState) (ticks : List VisionTick) :
    AREngineState :=
  ticks.foldl (fun u t => (AREngine.processFrame u t).2) s

/-! ## Geodesic math and GPS tracker (`ARLocationEngine.js`)

The trigonometric functions force this part of the embedding into `ℝ`, with the
mathematical `π` standing in for `Math.PI`. -/

/-- Truncation toward zero, the integer division underlying the JavaScript `%`. -/
noncomputable def jsTrunc (x : ℝ) : ℤ := if 0 ≤ x then ⌊x⌋ else ⌈x⌉

/-- The JavaScript remainder `a % b`: the remainder of truncated division, with the
sign of the dividend. -/
noncomputable def jsRem (a b : ℝ) : ℝ := a - b * jsTrunc (a / b)

/-- `Math.atan2(y, x)`: the angle of the point `(x, y)` in `(-π, π]`, with the
standard quadrant corrections around `Real.arctan`. -/
noncomputable def atan2 (y x : ℝ) : ℝ :=
  if 0 < x then Real.arctan (y / x)
  else if x < 0 then
    (if 0 ≤ y then Real.arctan (y / x) + Real.pi else Real.arctan (y / x) - Real.pi)
  else
    (if 0 < y then Real.pi / 2 else if y < 0 then -(Real.pi / 2) else 0)

/-- `ARLocationEngine.calculateDistance(lat1, lon1, lat2, lon2)`: haversine distance
in meters with Earth radius 6,371,000 m. -/
noncomputable def calculateDistance (lat1 lon1 lat2 lon2 : ℝ) : ℝ :=
  let R : ℝ := 6371000
  let phi1 := lat1 * Real.pi / 180
  let phi2 := lat2 * Real.pi / 180
  let dphi := (lat2 - lat1) * Real.pi / 180
  let dlam := (lon2 - lon1) * Real.pi / 180
  let a := Real.sin (dphi / 2) * Real.sin (dphi / 2) +
      Real.cos phi1 * Real.cos phi2 * Real.sin (dlam / 2) * Real.sin (dlam / 2)
  let c := 2 * atan2 (Real.sqrt a) (Real.sqrt (1 - a))
  R * c

/-- `ARLocationEngine.calculateBearing(lat1, lon1, lat2, lon2)`: initial bearing in
degrees, normalized by `(θ·180/π + 360) % 360`. -/
noncomputable def calculateBearing (lat1 lon1 lat2 lon2 : ℝ) : ℝ :=
  let phi1 := lat1 * Real.pi / 180
  let phi2 := lat2 * Real.pi / 180
  let dlam := (lon2 - lon1) * Real.pi / 180
  let y := Real.sin dlam * Real.cos phi2
  let x := Real.cos phi1 * Real.sin phi2 -
      Real.sin phi1 * Real.cos phi2 * Real.cos dlam
  let theta := atan2 y x
  jsRem (theta * 180 / Real.pi + 360) 360

/-- A geolocation fix as stored in `this.currentLocation`. -/
structure LocationFix where
  latitude : ℝ
  longitude : ℝ
  altitude : Option ℝ
  accuracy : ℝ

/-- The fixed `this.targetLocation`. -/
structure TargetLocation where
  latitude : ℝ
  longitude : ℝ
  altitude : ℝ

/-- Compass/orientation sample `{alpha, beta, gamma}` in degrees. -/
structure DeviceOrientation where
  alpha : ℝ
  beta : ℝ
  gamma : ℝ

/-- The pose built by `ARLocationEngine.updatePose()`. -/
structure GeoPose where
  px : ℝ
  py : ℝ
  pz : ℝ
  rx : ℝ
  ry : ℝ
  rz : ℝ
  distance : ℝ
  bearing : ℝ
  accuracy : ℝ
  confidence : ℝ

/-- Mutable state of `ARLocationEngine` relevant to tracking, including the settings
fields of its constructor. -/
structure LocState where
  currentLocation : Option LocationFix
  targetLocation : Option TargetLocation
  deviceOrientation : DeviceOrientation
  gpsAccuracyThreshold : ℝ
  minDistance : ℝ
  maxDistance : ℝ
  isTracking : Bool
  distance : Option ℝ
  bearing : Option ℝ
  currentPose : Option GeoPose

/-- `ARLocationEngine.updatePose()`: rotate the bearing into a heading relative to
the compass, project the distance into local x/z offsets, take the vertical offset
from the altitude delta, and stamp `confidence = min(1, threshold/accuracy)`. -/
noncomputable def ARLocationEngine.updatePose (s : LocState) (cur : LocationFix)
    (tgt : TargetLocation) (d b : ℝ) : GeoPose :=
  let relativeHeading := jsRem (b - s.deviceOrientation.alpha + 360) 360
  let headingRad := relativeHeading * Real.pi / 180
  { px := d * Real.sin headingRad
    py := tgt.altitude - cur.altitude.getD 0
    pz := -d * Real.cos headingRad
    rx := s.deviceOrientation.beta * Real.pi / 180
    ry := s.deviceOrientation.alpha * Real.pi / 180
    rz := s.deviceOrientation.gamma * Real.pi / 180
    distance := d
    bearing := b
    accuracy := cur.accuracy
    confidence := min 1 (s.gpsAccuracyThreshold / cur.accuracy) }

open Classical in
/-- `ARLocationEngine.updateTracking()`: with both a fix and a target, compute
distance and bearing; `isTracking` requires `accuracy ≤ gpsAccuracyThreshold` and
`minDistance ≤ distance ≤ maxDistance`; the pose is refreshed only when tracking. -/
noncomputable def ARLocationEngine.updateTracking (s : LocState) : LocState :=
  match s.currentLocation, s.targetLocation with
  | some cur, some tgt =>
    let d := calculateDistance cur.latitude cur.longitude tgt.latitude tgt.longitude
    let b := calculateBearing cur.latitude cur.longitude tgt.latitude tgt.longitude
    let accuracyOk := cur.accuracy ≤ s.gpsAccuracyThreshold
    let distanceOk := s.minDistance ≤ d ∧ d ≤ s.maxDistance
    if accuracyOk ∧ distanceOk then
      { s with distance := some d, bearing := some b, isTracking := true,
               currentPose := some (ARLocationEngine.updatePose s cur tgt d b) }
    else
      { s with distance := some d, bearing := some b, isTracking := false }
  | _, _ => { s with isTracking := false }

/-- `TrackingResult` as emitted by `ARLocationEngine.processFrame` (the `gpsData`
payload is flattened into the `distance`/`bearing` fields used by the caller). -/
structure GeoResult where
  isTracking : Bool
  hasFeatures : Bool
  featureCount : ℕ
  planeCount : ℕ
  pose : Option GeoPose
  distance : Option ℝ
  bearing : Option ℝ

/-- `ARLocationEngine.processFrame()`: no per-tick computation, just a snapshot of
the current tracking state. -/
noncomputable def ARLocationEngine.processFrame (s : LocState) : GeoResult :=
  { isTracking := s.isTracking
    hasFeatures := s.currentLocation.isSome
    featureCount := if s.isTracking then 1 else 0
    planeCount := 0
    pose := s.currentPose
    distance := s.distance
    bearing := s.bearing }

/-- The end-to-end geodetic fixture of the spec: fix `(37.0, -122.0)` with accuracy
5 m, target `(37.001, -122.0, altitude 0)`, default thresholds (50 m accuracy,
5 m / 1000 m distance bounds). -/
noncomputable def geoFixtureState : LocState :=
  { currentLocation := some
      { latitude := 37, longitude := -122, altitude := some 0, accuracy := 5 }
    targetLocation := some { latitude := 37.001, longitude := -122, altitude := 0 }
    deviceOrientation := ⟨0, 0, 0⟩
    gpsAccuracyThreshold := 50
    minDistance := 5
    maxDistance := 1000
    isTracking := false
    distance := none
    bearing := none
    currentPose := none }

/-! ## The per-tick loop bodies of `main.js`

`startARLoop` (OpenCV path) and `startLocationLoop` (GPS path) take the
`TrackingResult` of the active engine and hand its pose to the `SceneManager`.
These definitions record exactly which pose values are passed to
`updateCameraPose` / `updateModelPose` on one tick. -/

/-- The pose arguments of the SceneManager calls made by one `startARLoop`
iteration (`none` = the call is not made this tick). -/
structure VisSceneCalls where
  cameraPose : Option Pose
  modelPose : Option Pose
deriving Repr, DecidableEq

/-- One `startARLoop` tick (after `processFrame`): when tracking and a model is
loaded, `updateCameraPose(trackingResult.pose)` is called, and additionally
`updateModelPose(trackingResult.pose)` before placement. -/
def startARLoopTick (hasModel isModelPlaced : Bool) (r : VisResult) : VisSceneCalls :=
  { cameraPose := if r.isTracking ∧ hasModel then r.pose else none
    modelPose := if r.isTracking ∧ hasModel ∧ ¬ isModelPlaced then r.pose else none }

/-- The pose argument of the SceneManager call made by one `startLocationLoop`
iteration. -/
structure GeoSceneCalls where
  cameraPose : Option GeoPose

/-- One `startLocationLoop` tick (after `processFrame`): whenever the result carries
a pose, `updateCameraPose(trackingResult.pose)` is called with it. -/
noncomputable def startLocationLoopTick (r : GeoResult) : GeoSceneCalls :=
  { cameraPose := r.pose }

/-! ## Placement (`SceneManager.js`) -/

/-- A world-space ray (origin and direction). -/
structure Ray where
  origin : Vec3
  dir : Vec3
deriving Repr, DecidableEq

/-- A plane `normal · p + constant = 0`, as in `THREE.Plane`. -/
structure PlaneQ where
  normal : Vec3
  constant : ℚ
deriving Repr, DecidableEq

/-- Dot product on `Vec3`. -/
def dotV (a b : Vec3) : ℚ := a.x * b.x + a.y * b.y + a.z * b.z

/-- The point at parameter `t` along a ray. -/
def rayAt (r : Ray) (t : ℚ) : Vec3 :=
  ⟨r.origin.x + t * r.dir.x, r.origin.y + t * r.dir.y, r.origin.z + t * r.dir.z⟩

/-- `THREE.Ray.intersectPlane`: null when the ray is parallel to (and off) the plane
or the intersection lies behind the origin, otherwise the intersection point. -/
def intersectPlane (r : Ray) (p : PlaneQ) : Option Vec3 :=
  let denom := dotV p.normal r.dir
  if denom = 0 then
    (if dotV p.normal r.origin + p.constant = 0 then some (rayAt r 0) else none)
  else
    let t := -(dotV r.origin p.normal + p.constant) / denom
    if 0 ≤ t then some (rayAt r t) else none

/-- Mutable state of `SceneManager` relevant to placement. The virtual camera enters
as the function `camera` taking a normalized-device-coordinate point to the world
ray cast through it (`Raycaster.setFromCamera`). -/
structure SceneState where
  hasModel : Bool
  camera : ℚ × ℚ → Ray
  screenWidth : ℚ
  screenHeight : ℚ
  modelRotation : ℚ
  modelGroupPos : Vec3
  modelGroupRotY : ℚ
  modelGroupVisible : Bool
  shadowPlaneVisible : Bool
  shadowPlaneX : ℚ
  shadowPlaneZ : ℚ
  groundIndicatorVisible : Bool
  gridHelperVisible : Bool
  isModelPlaced : Bool
  placedPosition : Vec3

/-- `SceneManager.placeModel(pose)`: fails with no model; otherwise casts the ray
through the screen center (NDC `(0,0)`, the crosshair — the `pose` argument is never
consulted), intersects the ground plane `normal (0,1,0), constant 0`, places the
model group at the intersection with `y = 0` (fallback `(0, 0, -2)` when there is no
intersection), applies the yaw setting, shows the model and shadow plane, hides the
indicators, and freezes the placed position. -/
def SceneManager.placeModel (s : SceneState) (_pose : Option Pose) :
    Bool × SceneState :=
  if ¬ s.hasModel then (false, s)
  else
    let ndcX : ℚ := 0
    let ndcY : ℚ := 0
    let ray := s.camera (ndcX, ndcY)
    let groundPlane : PlaneQ := { normal := ⟨0, 1, 0⟩, constant := 0 }
    let pos : Vec3 :=
      match intersectPlane ray groundPlane with
      | some p => ⟨p.x, 0, p.z⟩
      | none => ⟨0, 0, -2⟩
    (true,
     { s with modelGroupPos := pos
              modelGroupRotY := degToRad s.modelRotation
              modelGroupVisible := true
              shadowPlaneVisible := true
              shadowPlaneX := pos.x
              shadowPlaneZ := pos.z
              groundIndicatorVisible := false
              gridHelperVisible := false
              isModelPlaced := true
              placedPosition := pos })

/-! ## Confidence-gating lemmas -/

theorem estimatePose_planeConfidence (s : AREngineState) (e : Bool) :
    (AREngine.estimatePose s e).2.planeConfidence = s.planeConfidence := by
  unfold AREngine.estimatePose
  rcases s.groundPlane with _ | gp
  · rfl
  · by_cases h1 : gp.homography.isEmpty
    · simp [h1]
    · by_cases h2 : e <;> simp [h1, h2]

theorem trackFeatures_planeConfidence (s : AREngineState) (t : VisionTick) :
    (AREngine.trackFeatures s t).2.planeConfidence = s.planeConfidence := by
  unfold AREngine.trackFeatures
  by_cases h0 : s.prevKeypointsCount = 0 ∨ t.featureCount = 0
  · simp [h0]
  · by_cases h1 : t.matcherOk <;> simp [h0, h1]

theorem detectPlane_true_conf (s : AREngineState) (fit : FitOutcome)
    (h : (AREngine.detectPlane s fit).1 = true) :
    (0.5 : ℚ) < (AREngine.detectPlane s fit).2.planeConfidence := by
  unfold AREngine.detectPlane at h ⊢
  by_cases h8 : s.trackedPoints.length < 8
  · rw [if_pos h8] at h
    exact absurd h (by simp)
  · rw [if_neg h8] at h ⊢
    rcases fit with ⟨n, H⟩ | _
    · dsimp only at h ⊢
      by_cases hc : s.settings.minInliers ≤ n ∧ ¬ H.isEmpty
      · rw [if_pos hc] at h ⊢
        simp only [decide_eq_true_eq] at h
        simpa using h
      · rw [if_neg hc] at h
        exact absurd h (by simp)
    · dsimp only at h
      exact absurd h (by simp)

theorem processCore_true_conf (s1 : AREngineState) (t : VisionTick)
    (h : (AREngine.processCore s1 t).1 = true) :
    (0.5 : ℚ) < (AREngine.processCore s1 t).2.2.2.planeConfidence := by
  unfold AREngine.processCore at h ⊢
  by_cases hr : 0 < s1.prevFrameRows ∧ 0 < s1.prevKeypointsCount
  · rw [if_pos hr] at h ⊢
    dsimp only at h ⊢
    by_cases htr : (AREngine.trackFeatures s1 t).1 = true
    · rw [if_pos htr] at h ⊢
      by_cases hdp :
          (AREngine.detectPlane (AREngine.trackFeatures s1 t).2 t.fit).1 = true
      · rw [if_pos hdp] at h ⊢
        dsimp only at h ⊢
        rw [estimatePose_planeConfidence]
        exact detectPlane_true_conf _ _ hdp
      · rw [if_neg hdp] at h
        exact absurd h (by simp)
    · rw [if_neg htr] at h
      exact absurd h (by simp)
  · rw [if_neg hr] at h
    exact absurd h (by simp)

theorem arProcessFrame_true_conf (s : AREngineState) (t : VisionTick)
    (h : (AREngine.processFrame s t).1.isTracking = true) :
    (0.5 : ℚ) < (AREngine.processFrame s t).2.planeConfidence := by
  unfold AREngine.processFrame at h ⊢
  by_cases hd : t.width = 0 ∨ t.height = 0
  · rw [if_pos hd] at h
    exact absurd h (by simp)
  · rw [if_neg hd] at h ⊢
    dsimp only at h ⊢
    exact processCore_true_conf _ _ h

theorem webxr_true_conf (s : WebXRState) (f : Option XRFrame)
    (h : (WebXREngine.processFrame s f).1.isTracking = true) :
    (0.5 : ℚ) < (WebXREngine.processFrame s f).2.planeConfidence := by
  unfold WebXREngine.processFrame at h ⊢
  by_cases hs : s.isSessionActive = true
  · rw [if_neg (not_not_intro hs)] at h ⊢
    rcases f with _ | f
    · exact absurd h (by simp)
    · dsimp only at h ⊢
      by_cases hv : f.viewerPoseOk = true
      · rw [if_neg (not_not_intro hv)] at h ⊢
        by_cases hh : s.hasHitTestSource = true
        · rw [if_neg (not_not_intro hh)] at h ⊢
          rcases hf : f.hits with _ | ⟨hit, rest⟩
          · simp only [hf] at h
            exact Bool.noConfusion h
          · simp only [hf] at h ⊢
            rcases hp : hit.pose with _ | tr
            · simp only [hp] at h
              exact Bool.noConfusion h
            · simp only [hp] at h ⊢
              exact of_decide_eq_true h
        · rw [if_pos hh] at h
          exact absurd h (by simp)
      · rw [if_pos hv] at h
        exact absurd h (by simp)
  · rw [if_pos hs] at h
    exact absurd h (by simp)

/-- C1: for every tracking backend, `processFrame` reports `isTracking = true` only
once the accumulated plane confidence exceeds 0.5, and whenever that confidence is
at or below 0.5 the emitted result has `isTracking = false` — hit-test backend
(`WebXREngine.processFrame`) and visual backend (`AREngine.processFrame`). -/
theorem tracking_only_above_half_confidence :
    (∀ (s : WebXRState) (f : Option XRFrame),
      ((WebXREngine.processFrame s f).1.isTracking = true →
        (0.5 : ℚ) < (WebXREngine.processFrame s f).2.planeConfidence) ∧
      ((WebXREngine.processFrame s f).2.planeConfidence ≤ 0.5 →
        (WebXREngine.processFrame s f).1.isTracking = false)) ∧
    (∀ (s : AREngineState) (t : VisionTick),
      ((AREngine.processFrame s t).1.isTracking = true →
        (0.5 : ℚ) < (AREngine.processFrame s t).2.planeConfidence) ∧
      ((AREngine.processFrame s t).2.planeConfidence ≤ 0.5 →
        (AREngine.processFrame s t).1.isTracking = false)) := by
  have contra : ∀ (b : Bool) (c : ℚ), (b = true → 0.5 < c) → c ≤ 0.5 → b = false := by
    intro b c h hc
    cases hb : b
    · rfl
    · exact absurd (h hb) (not_lt.mpr hc)
  constructor
  · intro s f
    exact ⟨webxr_true_conf s f, contra _ _ (webxr_true_conf s f)⟩
  · intro s t
    exact ⟨arProcessFrame_true_conf s t, contra _ _ (arProcessFrame_true_conf s t)⟩

/-- Witness for C1 at a concrete input: a hit-test tick that ramps the confidence
from 0.45 to 0.6 reports tracking, and the theorem yields `0.5 < 0.6`. -/
theorem tracking_only_above_half_confidence_witness :
    (0.5 : ℚ) < (WebXREngine.processFrame
      { isSessionActive := true, hasHitTestSource := true, planeConfidence := 0.45,
        isTracking := false, currentPose := none }
      (some { viewerPoseOk := true,
              hits := [{ pose := some ⟨1, 2, 3, 0, 0, 0, 1⟩ }] })).2.planeConfidence :=
  (tracking_only_above_half_confidence.1 _ _).1 (by
    simp only [WebXREngine.processFrame]
    norm_num [min_def])

theorem webxr_conf_cases (s : WebXRState) (f : Option XRFrame) :
    (WebXREngine.processFrame s f).2.planeConfidence = s.planeConfidence ∨
    (WebXREngine.processFrame s f).2.planeConfidence =
      max 0 (s.planeConfidence - 0.1) ∨
    (WebXREngine.processFrame s f).2.planeConfidence =
      min 1 (s.planeConfidence + 0.15) := by
  unfold WebXREngine.processFrame
  by_cases hs : s.isSessionActive = true
  · rw [if_neg (not_not_intro hs)]
    rcases f with _ | f
    · exact Or.inl rfl
    · dsimp only
      by_cases hv : f.viewerPoseOk = true
      · rw [if_neg (not_not_intro hv)]
        by_cases hh : s.hasHitTestSource = true
        · rw [if_neg (not_not_intro hh)]
          rcases hf : f.hits with _ | ⟨hit, rest⟩
          · simp [hf]
          · rcases hp : hit.pose with _ | tr
            · simp [hf, hp]
            · simp [hf, hp]
        · rw [if_pos hh]
          exact Or.inl rfl
      · rw [if_pos hv]
        exact Or.inl rfl
  · rw [if_pos hs]
    exact Or.inl rfl

theorem detectPlane_conf_cases (s : AREngineState) (fit : FitOutcome) :
    (AREngine.detectPlane s fit).2.planeConfidence =
      max 0 (s.planeConfidence - 0.1) ∨
    (AREngine.detectPlane s fit).2.planeConfidence =
      min 1 (s.planeConfidence + 0.15) := by
  unfold AREngine.detectPlane
  by_cases h8 : s.trackedPoints.length < 8
  · rw [if_pos h8]
    exact Or.inl rfl
  · rw [if_neg h8]
    rcases fit with ⟨n, H⟩ | _
    · dsimp only
      by_cases hc : s.settings.minInliers ≤ n ∧ ¬ H.isEmpty
      · rw [if_pos hc]
        exact Or.inr rfl
      · rw [if_neg hc]
        exact Or.inl rfl
    · exact Or.inl rfl

theorem processCore_conf_cases (s1 : AREngineState) (t : VisionTick) :
    (AREngine.processCore s1 t).2.2.2.planeConfidence = s1.planeConfidence ∨
    (AREngine.processCore s1 t).2.2.2.planeConfidence =
      max 0 (s1.planeConfidence - 0.1) ∨
    (AREngine.processCore s1 t).2.2.2.planeConfidence =
      min 1 (s1.planeConfidence + 0.15) := by
  unfold AREngine.processCore
  by_cases hr : 0 < s1.prevFrameRows ∧ 0 < s1.prevKeypointsCount
  · rw [if_pos hr]
    dsimp only
    by_cases htr : (AREngine.trackFeatures s1 t).1 = true
    · rw [if_pos htr]
      by_cases hdp :
          (AREngine.detectPlane (AREngine.trackFeatures s1 t).2 t.fit).1 = true
      · rw [if_pos hdp]
        dsimp only
        rw [estimatePose_planeConfidence]
        have hc := detectPlane_conf_cases (AREngine.trackFeatures s1 t).2 t.fit
        rw [trackFeatures_planeConfidence] at hc
        exact Or.inr hc
      · rw [if_neg hdp]
        dsimp only
        have hc := detectPlane_conf_cases (AREngine.trackFeatures s1 t).2 t.fit
        rw [trackFeatures_planeConfidence] at hc
        exact Or.inr hc
    · rw [if_neg htr]
      dsimp only
      rw [trackFeatures_planeConfidence]
      exact Or.inl rfl
  · rw [if_neg hr]
    exact Or.inl rfl

theorem arProcessFrame_conf_cases (s : AREngineState) (t : VisionTick) :
    (AREngine.processFrame s t).2.planeConfidence = s.planeConfidence ∨
    (AREngine.processFrame s t).2.planeConfidence =
      max 0 (s.planeConfidence - 0.1) ∨
    (AREngine.processFrame s t).2.planeConfidence =
      min 1 (s.planeConfidence + 0.15) := by
  unfold AREngine.processFrame
  by_cases hd : t.width = 0 ∨ t.height = 0
  · rw [if_pos hd]
    exact Or.inl rfl
  · rw [if_neg hd]
    dsimp only
    by_cases ha : ¬ s.frameAllocated ∨ s.frameRows ≠ t.height ∨ s.frameCols ≠ t.width
    · rw [if_pos ha]
      exact processCore_conf_cases _ t
    · rw [if_neg ha]
      exact processCore_conf_cases s t

theorem conf_step_bounds (a c : ℚ) (h0 : 0 ≤ c) (h1 : c ≤ 1)
    (h : a = c ∨ a = max 0 (c - 0.1) ∨ a = min 1 (c + 0.15)) : 0 ≤ a ∧ a ≤ 1 := by
  rcases h with h | h | h <;> subst h
  · exact ⟨h0, h1⟩
  · exact ⟨le_max_left _ _, max_le (by norm_num) (by linarith)⟩
  · exact ⟨le_min (by norm_num) (by linarith), min_le_left _ _⟩

theorem webxr_many_bounds (frames : List (Option XRFrame)) (s : WebXRState)
    (h0 : 0 ≤ s.planeConfidence) (h1 : s.planeConfidence ≤ 1) :
    0 ≤ (WebXREngine.processMany s frames).planeConfidence ∧
    (WebXREngine.processMany s frames).planeConfidence ≤ 1 := by
  induction frames generalizing s with
  | nil => exact ⟨h0, h1⟩
  | cons f fs ih =>
    have step := conf_step_bounds _ _ h0 h1 (webxr_conf_cases s f)
    simpa only [WebXREngine.processMany, List.foldl] using
      ih (WebXREngine.processFrame s f).2 step.1 step.2

theorem ar_many_bounds (ticks : List VisionTick) (s : AREngineState)
    (h0 : 0 ≤ s.planeConfidence) (h1 : s.planeConfidence ≤ 1) :
    0 ≤ (AREngine.processMany s ticks).planeConfidence ∧
    (AREngine.processMany s ticks).planeConfidence ≤ 1 := by
  induction ticks generalizing s with
  | nil => exact ⟨h0, h1⟩
  | cons t ts ih =>
    have step := conf_step_bounds _ _ h0 h1 (arProcessFrame_conf_cases s t)
    simpa only [AREngine.processMany, List.foldl] using
      ih (AREngine.processFrame s t).2 step.1 step.2

/-- C3: plane confidence always stays within [0,1]: each tick leaves the confidence
unchanged, decays it by 0.1 floored at 0, or ramps it by 0.15 capped at 1, and any
sequence of ticks started from a freshly constructed tracker (confidence 0) — in
particular any run of consecutive successes or consecutive failures — keeps the
confidence between 0 and 1, for both confidence-carrying backends. -/
theorem confidence_stays_in_unit_interval :
    (∀ (s : WebXRState) (f : Option XRFrame),
      (WebXREngine.processFrame s f).2.planeConfidence = s.planeConfidence ∨
      (WebXREngine.processFrame s f).2.planeConfidence =
        max 0 (s.planeConfidence - 0.1) ∨
      (WebXREngine.processFrame s f).2.planeConfidence =
        min 1 (s.planeConfidence + 0.15)) ∧
    (∀ (s : AREngineState) (t : VisionTick),
      (AREngine.processFrame s t).2.planeConfidence = s.planeConfidence ∨
      (AREngine.processFrame s t).2.planeConfidence =
        max 0 (s.planeConfidence - 0.1) ∨
      (AREngine.processFrame s t).2.planeConfidence =
        min 1 (s.planeConfidence + 0.15)) ∧
    (∀ frames : List (Option XRFrame),
      0 ≤ (WebXREngine.processMany webXRInit frames).planeConfidence ∧
      (WebXREngine.processMany webXRInit frames).planeConfidence ≤ 1) ∧
    (∀ ticks : List VisionTick,
      0 ≤ (AREngine.processMany arEngineInit ticks).planeConfidence ∧
      (AREngine.processMany arEngineInit ticks).planeConfidence ≤ 1) :=
  ⟨webxr_conf_cases, arProcessFrame_conf_cases,
   fun frames => webxr_many_bounds frames webXRInit (by norm_num [webXRInit])
     (by norm_num [webXRInit]),
   fun ticks => ar_many_bounds ticks arEngineInit (by norm_num [arEngineInit])
     (by norm_num [arEngineInit])⟩

/-! ## Hysteresis lemmas -/

theorem trackFeatures_true (s : AREngineState) (t : VisionTick)
    (h0 : ¬ (s.prevKeypointsCount = 0 ∨ t.featureCount = 0))
    (hm : t.matcherOk = true)
    (hlen : s.settings.minInliers ≤ t.filteredPoints.length) :
    (AREngine.trackFeatures s t).1 = true ∧
    (AREngine.trackFeatures s t).2 = { s with trackedPoints := t.filteredPoints } := by
  unfold AREngine.trackFeatures
  rw [if_neg h0, if_neg (not_not_intro hm)]
  exact ⟨decide_eq_true hlen, rfl⟩

theorem detectPlane_exn_decay (s : AREngineState) :
    (AREngine.detectPlane s FitOutcome.exn).1 = false ∧
    (AREngine.detectPlane s FitOutcome.exn).2.planeConfidence =
      max 0 (s.planeConfidence - 0.1) := by
  unfold AREngine.detectPlane
  by_cases h8 : s.trackedPoints.length < 8
  · rw [if_pos h8]
    exact ⟨rfl, rfl⟩
  · rw [if_neg h8]
    exact ⟨rfl, rfl⟩

theorem detectPlane_success (s : AREngineState) (n : ℕ) (H : Homography)
    (h8 : ¬ s.trackedPoints.length < 8)
    (hn : s.settings.minInliers ≤ n) (hH : H.isEmpty = false)
    (hconf : (0.5 : ℚ) < s.planeConfidence + 0.15) :
    (AREngine.detectPlane s (FitOutcome.ok n H)).1 = true ∧
    (AREngine.detectPlane s (FitOutcome.ok n H)).2.groundPlane =
      some { homography := H, inliers := n,
             center := calculatePlaneCenter s.trackedPoints,
             confidence := min 1 (s.planeConfidence + 0.15) } := by
  unfold AREngine.detectPlane
  rw [if_neg h8]
  dsimp only
  rw [if_pos ⟨hn, by simp [hH]⟩]
  refine ⟨decide_eq_true (lt_min (by norm_num) hconf), rfl⟩

theorem estimatePose_true (s : AREngineState) (gp : GroundPlane) (e : Bool)
    (hgp : s.groundPlane = some gp) (hH : gp.homography.isEmpty = false)
    (he : e = false) :
    (AREngine.estimatePose s e).1 = true := by
  unfold AREngine.estimatePose
  rw [hgp]
  dsimp only
  rw [if_neg (by simp [hH]), he]
  simp

theorem arProcessFrame_success (s : AREngineState) (t : VisionTick) (n : ℕ)
    (H : Homography)
    (hd : ¬ (t.width = 0 ∨ t.height = 0))
    (halloc : s.frameAllocated = true) (hfr : s.frameRows = t.height)
    (hfcC : s.frameCols = t.width)
    (hprev : 0 < s.prevFrameRows) (hpk : 0 < s.prevKeypointsCount)
    (hfc : t.featureCount ≠ 0)
    (hm : t.matcherOk = true) (hlen : s.settings.minInliers ≤ t.filteredPoints.length)
    (h8 : ¬ t.filteredPoints.length < 8)
    (hfit : t.fit = FitOutcome.ok n H) (hn : s.settings.minInliers ≤ n)
    (hH : H.isEmpty = false) (hexn : t.poseExn = false)
    (hconf : (0.5 : ℚ) < s.planeConfidence + 0.15) :
    (AREngine.processFrame s t).1.isTracking = true := by
  have h0 : ¬ (s.prevKeypointsCount = 0 ∨ t.featureCount = 0) := by
    have hpk0 := Nat.pos_iff_ne_zero.mp hpk
    exact fun hc => hc.elim hpk0 hfc
  have htf := trackFeatures_true s t h0 hm hlen
  have hdp := detectPlane_success { s with trackedPoints := t.filteredPoints } n H
    (by simpa using h8) (by simpa using hn) hH (by simpa using hconf)
  unfold AREngine.processFrame
  rw [if_neg hd]
  dsimp only
  rw [if_neg (by simp [halloc, hfr, hfcC])]
  unfold AREngine.processCore
  rw [if_pos ⟨hprev, hpk⟩]
  dsimp only
  rw [if_pos htf.1, htf.2, hfit, if_pos hdp.1]
  dsimp only
  exact estimatePose_true _ _ _ hdp.2 (by simpa using hH) hexn

theorem arProcessFrame_decay (s : AREngineState) (t : VisionTick)
    (hd : ¬ (t.width = 0 ∨ t.height = 0))
    (halloc : s.frameAllocated = true) (hfr : s.frameRows = t.height)
    (hfcC : s.frameCols = t.width)
    (hprev : 0 < s.prevFrameRows) (hpk : 0 < s.prevKeypointsCount)
    (hfc : t.featureCount ≠ 0)
    (hm : t.matcherOk = true) (hlen : s.settings.minInliers ≤ t.filteredPoints.length)
    (hfit : t.fit = FitOutcome.exn) :
    (AREngine.processFrame s t).2.planeConfidence =
      max 0 (s.planeConfidence - 0.1) := by
  have h0 : ¬ (s.prevKeypointsCount = 0 ∨ t.featureCount = 0) := by
    have hpk0 := Nat.pos_iff_ne_zero.mp hpk
    exact fun hc => hc.elim hpk0 hfc
  have htf := trackFeatures_true s t h0 hm hlen
  have hdp := detectPlane_exn_decay { s with trackedPoints := t.filteredPoints }
  unfold AREngine.processFrame
  rw [if_neg hd]
  dsimp only
  rw [if_neg (by simp [halloc, hfr, hfcC])]
  unfold AREngine.processCore
  rw [if_pos ⟨hprev, hpk⟩]
  dsimp only
  rw [if_pos htf.1, htf.2, hfit, if_neg (by simp [hdp.1])]
  dsimp only
  simpa using hdp.2

theorem trackFeatures_fields (s : AREngineState) (t : VisionTick) :
    (AREngine.trackFeatures s t).2.frameAllocated = s.frameAllocated ∧
    (AREngine.trackFeatures s t).2.frameRows = s.frameRows ∧
    (AREngine.trackFeatures s t).2.frameCols = s.frameCols ∧
    (AREngine.trackFeatures s t).2.settings = s.settings := by
  unfold AREngine.trackFeatures
  by_cases h0 : s.prevKeypointsCount = 0 ∨ t.featureCount = 0
  · rw [if_pos h0]
    exact ⟨rfl, rfl, rfl, rfl⟩
  · rw [if_neg h0]
    by_cases hm : t.matcherOk = true
    · rw [if_neg (not_not_intro hm)]
      exact ⟨rfl, rfl, rfl, rfl⟩
    · rw [if_pos hm]
      exact ⟨rfl, rfl, rfl, rfl⟩

theorem detectPlane_fields (s : AREngineState) (fit : FitOutcome) :
    (AREngine.detectPlane s fit).2.frameAllocated = s.frameAllocated ∧
    (AREngine.detectPlane s fit).2.frameRows = s.frameRows ∧
    (AREngine.detectPlane s fit).2.frameCols = s.frameCols ∧
    (AREngine.detectPlane s fit).2.settings = s.settings := by
  unfold AREngine.detectPlane
  by_cases h8 : s.trackedPoints.length < 8
  · rw [if_pos h8]
    exact ⟨rfl, rfl, rfl, rfl⟩
  · rw [if_neg h8]
    rcases fit with ⟨n, H⟩ | _
    · dsimp only
      by_cases hc : s.settings.minInliers ≤ n ∧ ¬ H.isEmpty
      · rw [if_pos hc]
        exact ⟨rfl, rfl, rfl, rfl⟩
      · rw [if_neg hc]
        exact ⟨rfl, rfl, rfl, rfl⟩
    · exact ⟨rfl, rfl, rfl, rfl⟩

theorem estimatePose_fields (s : AREngineState) (e : Bool) :
    (AREngine.estimatePose s e).2.frameAllocated = s.frameAllocated ∧
    (AREngine.estimatePose s e).2.frameRows = s.frameRows ∧
    (AREngine.estimatePose s e).2.frameCols = s.frameCols ∧
    (AREngine.estimatePose s e).2.settings = s.settings := by
  unfold AREngine.estimatePose
  rcases s.groundPlane with _ | gp
  · exact ⟨rfl, rfl, rfl, rfl⟩
  · dsimp only
    by_cases h1 : gp.homography.isEmpty = true
    · rw [if_pos h1]
      exact ⟨rfl, rfl, rfl, rfl⟩
    · rw [if_neg h1]
      by_cases h2 : e = true
      · rw [if_pos h2]
        exact ⟨rfl, rfl, rfl, rfl⟩
      · rw [if_neg h2]
        exact ⟨rfl, rfl, rfl, rfl⟩

theorem processCore_fields (s1 : AREngineState) (t : VisionTick) :
    (AREngine.processCore s1 t).2.2.2.frameAllocated = s1.frameAllocated ∧
    (AREngine.processCore s1 t).2.2.2.frameRows = s1.frameRows ∧
    (AREngine.processCore s1 t).2.2.2.frameCols = s1.frameCols ∧
    (AREngine.processCore s1 t).2.2.2.settings = s1.settings := by
  unfold AREngine.processCore
  by_cases hr : 0 < s1.prevFrameRows ∧ 0 < s1.prevKeypointsCount
  · rw [if_pos hr]
    dsimp only
    have htf := trackFeatures_fields s1 t
    by_cases htr : (AREngine.trackFeatures s1 t).1 = true
    · rw [if_pos htr]
      have hdf := detectPlane_fields (AREngine.trackFeatures s1 t).2 t.fit
      by_cases hdp :
          (AREngine.detectPlane (AREngine.trackFeatures s1 t).2 t.fit).1 = true
      · rw [if_pos hdp]
        dsimp only
        have hef := estimatePose_fields
          (AREngine.detectPlane (AREngine.trackFeatures s1 t).2 t.fit).2 t.poseExn
        exact ⟨(hef.1.trans hdf.1).trans htf.1,
               (hef.2.1.trans hdf.2.1).trans htf.2.1,
               (hef.2.2.1.trans hdf.2.2.1).trans htf.2.2.1,
               (hef.2.2.2.trans hdf.2.2.2).trans htf.2.2.2⟩
      · rw [if_neg hdp]
        dsimp only
        exact ⟨hdf.1.trans htf.1, hdf.2.1.trans htf.2.1,
               hdf.2.2.1.trans htf.2.2.1, hdf.2.2.2.trans htf.2.2.2⟩
    · rw [if_neg htr]
      exact htf
  · rw [if_neg hr]
    exact ⟨rfl, rfl, rfl, rfl⟩

theorem arProcessFrame_fields (s : AREngineState) (t : VisionTick)
    (hd : ¬ (t.width = 0 ∨ t.height = 0)) :
    (AREngine.processFrame s t).2.frameAllocated = true ∧
    (AREngine.processFrame s t).2.frameRows = t.height ∧
    (AREngine.processFrame s t).2.frameCols = t.width ∧
    (AREngine.processFrame s t).2.prevFrameRows = t.height ∧
    (AREngine.processFrame s t).2.prevKeypointsCount = t.featureCount ∧
    (AREngine.processFrame s t).2.settings = s.settings := by
  unfold AREngine.processFrame
  rw [if_neg hd]
  dsimp only
  by_cases ha : ¬ s.frameAllocated ∨ s.frameRows ≠ t.height ∨ s.frameCols ≠ t.width
  · rw [if_pos ha]
    have hc := processCore_fields
      { s with frameAllocated := true, frameRows := t.height, frameCols := t.width,
               prevFrameRows := 0, fx := (t.width : ℚ), fy := (t.width : ℚ) } t
    exact ⟨hc.1, hc.2.1, hc.2.2.1, rfl, rfl, hc.2.2.2⟩
  · rw [if_neg ha]
    push_neg at ha
    have hc := processCore_fields s t
    exact ⟨hc.1.trans (by simpa using ha.1), hc.2.1.trans ha.2.1,
           hc.2.2.1.trans ha.2.2, rfl, rfl, hc.2.2.2⟩

theorem webxr_decay_state (s : WebXRState) (f : XRFrame)
    (hact : s.isSessionActive = true) (hsrc : s.hasHitTestSource = true)
    (hv : f.viewerPoseOk = true) (hh : f.hits = []) :
    (WebXREngine.processFrame s (some f)).2 =
      { s with planeConfidence := max 0 (s.planeConfidence - 0.1),
               isTracking := false } := by
  unfold WebXREngine.processFrame
  rw [if_neg (not_not_intro hact)]
  dsimp only
  rw [if_neg (not_not_intro hv), if_neg (not_not_intro hsrc)]
  simp only [hh]

theorem webxr_success_tracking (s : WebXRState) (f : XRFrame) (hit : XRHit)
    (rest : List XRHit) (tr : XRTransform)
    (hact : s.isSessionActive = true) (hsrc : s.hasHitTestSource = true)
    (hv : f.viewerPoseOk = true) (hh : f.hits = hit :: rest) (hp : hit.pose = some tr)
    (hconf : (0.5 : ℚ) < s.planeConfidence + 0.15) :
    (WebXREngine.processFrame s (some f)).1.isTracking = true := by
  unfold WebXREngine.processFrame
  rw [if_neg (not_not_intro hact)]
  dsimp only
  rw [if_neg (not_not_intro hv), if_neg (not_not_intro hsrc)]
  simp only [hh, hp]
  exact decide_eq_true (lt_min (by norm_num) hconf)

/-- C2: one-sided hysteresis. Once the plane confidence has reached at least 0.6, a
single failed tick (one −0.10 decay) does not lastingly flip `isTracking`: the next
tick, when its detection succeeds, again reports `isTracking = true` — for the
hit-test backend (empty hit list then a hit) and for the visual backend (a thrown
homography fit then a good fit). -/
theorem single_failure_keeps_next_tick_tracking :
    (∀ (s : WebXRState) (f1 f2 : XRFrame) (hit : XRHit) (rest : List XRHit)
        (tr : XRTransform),
      0.6 ≤ s.planeConfidence →
      s.isSessionActive = true → s.hasHitTestSource = true →
      f1.viewerPoseOk = true → f1.hits = [] →
      f2.viewerPoseOk = true → f2.hits = hit :: rest → hit.pose = some tr →
      (WebXREngine.processFrame (WebXREngine.processFrame s (some f1)).2
          (some f2)).1.isTracking = true) ∧
    (∀ (s : AREngineState) (t1 t2 : VisionTick) (n : ℕ) (H : Homography),
      0.6 ≤ s.planeConfidence →
      s.frameAllocated = true → s.frameRows = t1.height → s.frameCols = t1.width →
      0 < s.prevFrameRows → 0 < s.prevKeypointsCount →
      t1.width ≠ 0 → t1.height ≠ 0 → t1.featureCount ≠ 0 →
      t1.matcherOk = true → s.settings.minInliers ≤ t1.filteredPoints.length →
      t1.fit = FitOutcome.exn →
      t2.width = t1.width → t2.height = t1.height → t2.featureCount ≠ 0 →
      t2.matcherOk = true → s.settings.minInliers ≤ t2.filteredPoints.length →
      ¬ t2.filteredPoints.length < 8 →
      t2.fit = FitOutcome.ok n H → s.settings.minInliers ≤ n → H.isEmpty = false →
      t2.poseExn = false →
      (AREngine.processFrame (AREngine.processFrame s t1).2 t2).1.isTracking =
        true) := by
  constructor
  · intro s f1 f2 hit rest tr hc hact hsrc hv1 hh1 hv2 hh2 hp
    rw [webxr_decay_state s f1 hact hsrc hv1 hh1]
    refine webxr_success_tracking _ f2 hit rest tr hact hsrc hv2 hh2 hp ?_
    have h1 : s.planeConfidence - 0.1 ≤ max 0 (s.planeConfidence - 0.1) :=
      le_max_right _ _
    show (0.5 : ℚ) < max 0 (s.planeConfidence - 0.1) + 0.15
    linarith
  · intro s t1 t2 n H hc halloc hfr hfcC hprev hpk hw1 hh1t hfc1 hm1 hlen1 hfit1
      hw2 hh2 hfc2 hm2 hlen2 h8 hfit2 hn hH hexn
    have hd1 : ¬ (t1.width = 0 ∨ t1.height = 0) := by
      intro hcon
      rcases hcon with h | h
      · exact hw1 h
      · exact hh1t h
    have hfields := arProcessFrame_fields s t1 hd1
    have hdec := arProcessFrame_decay s t1 hd1 halloc hfr hfcC hprev hpk hfc1 hm1
      hlen1 hfit1
    refine arProcessFrame_success _ t2 n H ?_ hfields.1
      (hfields.2.1.trans hh2.symm) (hfields.2.2.1.trans hw2.symm) ?_ ?_ hfc2 hm2
      ?_ h8 hfit2 ?_ hH hexn ?_
    · intro hcon
      rcases hcon with h | h
      · rw [hw2] at h
        exact hd1 (Or.inl h)
      · rw [hh2] at h
        exact hd1 (Or.inr h)
    · rw [hfields.2.2.2.1]
      exact Nat.pos_of_ne_zero (fun h => hd1 (Or.inr h))
    · rw [hfields.2.2.2.2.1]
      exact Nat.pos_of_ne_zero hfc1
    · rw [hfields.2.2.2.2.2]
      exact hlen2
    · rw [hfields.2.2.2.2.2]
      exact hn
    · rw [hdec]
      have h1 : s.planeConfidence - 0.1 ≤ max 0 (s.planeConfidence - 0.1) :=
        le_max_right _ _
      linarith

/-- Witness for C2 at a concrete input: a hit-test tracker at confidence 0.6 that
loses its hits for one tick and regains them on the next reports tracking on that
next tick. -/
theorem single_failure_keeps_next_tick_tracking_witness :
    (WebXREngine.processFrame
      (WebXREngine.processFrame
        { isSessionActive := true, hasHitTestSource := true, planeConfidence := 0.6,
          isTracking := true, currentPose := none }
        (some { viewerPoseOk := true, hits := [] })).2
      (some { viewerPoseOk := true,
              hits := [{ pose := some ⟨0, 0, -1, 0, 0, 0, 1⟩ }] })).1.isTracking =
      true :=
  single_failure_keeps_next_tick_tracking.1 _ _ _ _ [] _ (by norm_num) rfl rfl rfl
    rfl rfl rfl rfl

/-! ## Kalman filter lemmas -/

theorem kfPredict_qr (s : KFState) :
    (kfPredict s).q = s.q ∧ (kfPredict s).r = s.r := ⟨rfl, rfl⟩

theorem kfUpdate_qr (m : ℚ) (s : KFState) :
    (kfUpdate m s).q = s.q ∧ (kfUpdate m s).r = s.r := ⟨rfl, rfl⟩

theorem kfUpdate_p00 (m : ℚ) (s : KFState) (hp : 0 < s.p00) (hr : 0 < s.r) :
    0 < (kfUpdate m s).p00 := by
  unfold kfUpdate
  dsimp only
  have hS : 0 < s.p00 + s.r := by linarith
  have hK : 1 - s.p00 / (s.p00 + s.r) = s.r / (s.p00 + s.r) := by
    field_simp
  rw [hK]
  exact mul_pos (div_pos hr hS) hp

theorem kfRun_p00_pos (ops : List KFOp) (s : KFState)
    (hq : 0 < s.q) (hr : 0 < s.r) (hp : 0 < s.p00) :
    0 < (kfRun ops s).p00 ∧ (kfRun ops s).q = s.q ∧ (kfRun ops s).r = s.r := by
  induction ops generalizing s with
  | nil => exact ⟨hp, rfl, rfl⟩
  | cons op rest ih =>
    rcases op with _ | m
    · have step : 0 < (kfPredict s).p00 := by
        unfold kfPredict
        dsimp only
        linarith
      simpa only [kfRun, List.foldl] using ih (kfPredict s) hq hr step
    · have step : 0 < (kfUpdate m s).p00 := kfUpdate_p00 m s hp hr
      simpa only [kfRun, List.foldl] using ih (kfUpdate m s) hq hr step

/-- C10: for any processNoise Q > 0 and measurementNoise R > 0 and any interleaving
of `predict()` and `update(m)` calls on a freshly constructed scalar `KalmanFilter`,
the covariance entry `P[0][0]` remains strictly positive, so the innovation
covariance `S = P[0][0] + R` is strictly positive and the Kalman-gain divisions
never divide by zero. -/
theorem kalman_covariance_stays_positive (q r : ℚ) (hq : 0 < q) (hr : 0 < r)
    (ops : List KFOp) :
    0 < (kfRun ops (kfInit q r)).p00 ∧
    (kfRun ops (kfInit q r)).r = r ∧
    0 < (kfRun ops (kfInit q r)).p00 + (kfRun ops (kfInit q r)).r ∧
    (kfRun ops (kfInit q r)).p00 + (kfRun ops (kfInit q r)).r ≠ 0 := by
  have h := kfRun_p00_pos ops (kfInit q r) hq hr (by norm_num [kfInit])
  have hrr : (kfInit q r).r = r := rfl
  rw [hrr] at h
  refine ⟨h.1, h.2.2, ?_, ?_⟩
  · rw [h.2.2]
    linarith [h.1]
  · rw [h.2.2]
    have := h.1
    intro hcon
    linarith

/-- Witness for C10 at `Q = R = 1` and the call sequence
`predict(); update(3); predict(); predict(); update(-2)`. -/
theorem kalman_covariance_stays_positive_witness :
    0 < (kfRun [KFOp.predict, KFOp.update 3, KFOp.predict, KFOp.predict,
        KFOp.update (-2)] (kfInit 1 1)).p00 :=
  (kalman_covariance_stays_positive 1 1 (by norm_num) (by norm_num) _).1

theorem kfFilter_invariant_step (c : ℚ) (s : KFState)
    (hv : s.v = 0) (h01 : s.p01 = 0) (h10 : s.p10 = 0) (hp : 0 < s.p00)
    (hq : 0 < s.q) (hr : 0 < s.r) :
    (kfFilter c s).v = 0 ∧ (kfFilter c s).p01 = 0 ∧ (kfFilter c s).p10 = 0 ∧
    0 < (kfFilter c s).p00 ∧ (kfFilter c s).q = s.q ∧ (kfFilter c s).r = s.r ∧
    |c - (kfFilter c s).x| ≤ s.r / (s.q + s.r) * |c - s.x| := by
  unfold kfFilter kfUpdate kfPredict
  dsimp only
  rw [hv, h01, h10]
  have hS : 0 < s.p00 + s.q + s.r := by linarith
  have hqr : 0 < s.q + s.r := by linarith
  constructor
  · simp
  refine ⟨by ring, by ring, ?_, rfl, rfl, ?_⟩
  · have hK : 1 - (s.p00 + s.q) / (s.p00 + s.q + s.r) =
        s.r / (s.p00 + s.q + s.r) := by
      field_simp
    rw [hK]
    exact mul_pos (div_pos hr hS) (by linarith)
  · have hx : c - (s.x + 0 * s.dt +
        (s.p00 + s.q) / (s.p00 + s.q + s.r) * (c - (s.x + 0 * s.dt))) =
        (c - s.x) * (s.r / (s.p00 + s.q + s.r)) := by
      field_simp
      ring
    rw [hx, abs_mul, abs_of_pos (div_pos hr hS), mul_comm]
    have hdiv : s.r / (s.p00 + s.q + s.r) ≤ s.r / (s.q + s.r) := by
      gcongr
      linarith
    exact mul_le_mul_of_nonneg_right hdiv (abs_nonneg _)

theorem kfIterate_invariant (q r c : ℚ) (hq : 0 < q) (hr : 0 < r) (n : ℕ) :
    (kfIterate q r c n).v = 0 ∧ (kfIterate q r c n).p01 = 0 ∧
    (kfIterate q r c n).p10 = 0 ∧ 0 < (kfIterate q r c n).p00 ∧
    (kfIterate q r c n).q = q ∧ (kfIterate q r c n).r = r := by
  induction n with
  | zero => exact ⟨rfl, rfl, rfl, by norm_num [kfIterate, kfInit], rfl, rfl⟩
  | succ n ih =>
    have hq2 : 0 < (kfIterate q r c n).q := by
      rw [ih.2.2.2.2.1]
      exact hq
    have hr2 : 0 < (kfIterate q r c n).r := by
      rw [ih.2.2.2.2.2]
      exact hr
    have hstep := kfFilter_invariant_step c (kfIterate q r c n) ih.1 ih.2.1 ih.2.2.1
      ih.2.2.2.1 hq2 hr2
    have hit : kfIterate q r c (n + 1) = kfFilter c (kfIterate q r c n) := by
      unfold kfIterate
      rw [Function.iterate_succ_apply']
    rw [hit]
    exact ⟨hstep.1, hstep.2.1, hstep.2.2.1, hstep.2.2.2.1,
      hstep.2.2.2.2.1.trans ih.2.2.2.2.1, hstep.2.2.2.2.2.1.trans ih.2.2.2.2.2⟩

theorem kfErr_step (q r c : ℚ) (hq : 0 < q) (hr : 0 < r) (n : ℕ) :
    kfErr q r c (n + 1) ≤ r / (q + r) * kfErr q r c n := by
  have ih := kfIterate_invariant q r c hq hr n
  have hq2 : 0 < (kfIterate q r c n).q := by
    rw [ih.2.2.2.2.1]
    exact hq
  have hr2 : 0 < (kfIterate q r c n).r := by
    rw [ih.2.2.2.2.2]
    exact hr
  have hstep := kfFilter_invariant_step c (kfIterate q r c n) ih.1 ih.2.1 ih.2.2.1
    ih.2.2.2.1 hq2 hr2
  have hit : kfIterate q r c (n + 1) = kfFilter c (kfIterate q r c n) := by
    unfold kfIterate
    rw [Function.iterate_succ_apply']
  unfold kfErr
  rw [hit]
  have := hstep.2.2.2.2.2.2
  rw [ih.2.2.2.2.1, ih.2.2.2.2.2] at this
  exact this

theorem kfErr_mono (q r c : ℚ) (hq : 0 < q) (hr : 0 < r) (n : ℕ) :
    kfErr q r c (n + 1) ≤ kfErr q r c n := by
  have h := kfErr_step q r c hq hr n
  have hρ : r / (q + r) ≤ 1 := by
    rw [div_le_one (by linarith)]
    linarith
  have he : 0 ≤ kfErr q r c n := abs_nonneg _
  calc kfErr q r c (n + 1) ≤ r / (q + r) * kfErr q r c n := h
    _ ≤ 1 * kfErr q r c n := mul_le_mul_of_nonneg_right hρ he
    _ = kfErr q r c n := one_mul _

theorem kfErr_geometric (q r c : ℚ) (hq : 0 < q) (hr : 0 < r) (n : ℕ) :
    kfErr q r c n ≤ (r / (q + r)) ^ n * |c| := by
  induction n with
  | zero =>
    unfold kfErr kfIterate
    simp [kfInit]
  | succ n ih =>
    have hρ0 : 0 ≤ r / (q + r) := div_nonneg hr.le (by linarith)
    calc kfErr q r c (n + 1) ≤ r / (q + r) * kfErr q r c n :=
          kfErr_step q r c hq hr n
      _ ≤ r / (q + r) * ((r / (q + r)) ^ n * |c|) :=
          mul_le_mul_of_nonneg_left ih hρ0
      _ = (r / (q + r)) ^ (n + 1) * |c| := by ring

/-- C8: a scalar `KalmanFilter` with any Q > 0 and R > 0 fed the same constant
measurement `c` converges: the error `|c − x|` after `n` calls of `filter(c)` is
monotonically non-increasing from the first tick on, and tends to 0 (below any
positive bound from some tick on). -/
theorem kalman_constant_input_converges (q r c : ℚ) (hq : 0 < q) (hr : 0 < r) :
    (∀ n : ℕ, kfErr q r c (n + 1) ≤ kfErr q r c n) ∧
    (∀ ε : ℚ, 0 < ε → ∃ N : ℕ, ∀ n : ℕ, N ≤ n → kfErr q r c n < ε) := by
  refine ⟨kfErr_mono q r c hq hr, ?_⟩
  intro ε hε
  have hρ0 : 0 ≤ r / (q + r) := div_nonneg hr.le (by linarith)
  have hρ1 : r / (q + r) < 1 := by
    rw [div_lt_one (by linarith)]
    linarith
  have hM : (0 : ℚ) < |c| + 1 := by positivity
  obtain ⟨N, hN⟩ := exists_pow_lt_of_lt_one (div_pos hε hM) hρ1
  refine ⟨N, fun n hn => ?_⟩
  have h1 : kfErr q r c n ≤ (r / (q + r)) ^ n * |c| := kfErr_geometric q r c hq hr n
  have h2 : (r / (q + r)) ^ n ≤ (r / (q + r)) ^ N :=
    pow_le_pow_of_le_one hρ0 hρ1.le hn
  have h3 : (r / (q + r)) ^ n * |c| ≤ (r / (q + r)) ^ N * |c| :=
    mul_le_mul_of_nonneg_right h2 (abs_nonneg _)
  have h4 : (r / (q + r)) ^ N * |c| ≤ ε / (|c| + 1) * |c| :=
    mul_le_mul_of_nonneg_right hN.le (abs_nonneg _)
  have h5 : ε / (|c| + 1) * |c| < ε := by
    have hlt : ε / (|c| + 1) * |c| < ε / (|c| + 1) * (|c| + 1) :=
      mul_lt_mul_of_pos_left (lt_add_one _) (div_pos hε hM)
    rwa [div_mul_cancel₀ ε (ne_of_gt hM)] at hlt
  linarith

/-- Witness for C8 at `Q = 1`, `R = 1`, constant measurement `c = 2`. -/
theorem kalman_constant_input_converges_witness :
    (∀ n : ℕ, kfErr 1 1 2 (n + 1) ≤ kfErr 1 1 2 n) ∧
    (∀ ε : ℚ, 0 < ε → ∃ N : ℕ, ∀ n : ℕ, N ≤ n → kfErr 1 1 2 n < ε) :=
  kalman_constant_input_converges 1 1 2 (by norm_num) (by norm_num)

/-! ## Loop-body pose flow -/

/-- C4 fails on the code: neither `startARLoop` nor `startLocationLoop` runs the
tracker pose through `PoseKalmanFilter` — the pose handed to the SceneManager is the
tracker pose unchanged, and the pose-smoothing bank (which is not the identity, as a
fresh default bank already moves a measured position of 1 to 101/111) is never
invoked. Concretely: on a tracking tick with a loaded, unplaced model, both
SceneManager calls of the OpenCV loop receive the raw pose; the GPS loop always
passes `trackingResult.pose` through unchanged. -/
theorem loops_hand_scene_the_unfiltered_pose :
    (startARLoopTick true false
      { isTracking := true, hasFeatures := true, featureCount := 25, planeCount := 1,
        pose := some { position := ⟨1, 0, 0⟩, rotation := ⟨0, 0, 0⟩,
                       planeCenter := none, confidence := none },
        imu := ⟨0, 0, 0⟩ }).cameraPose =
      some { position := ⟨1, 0, 0⟩, rotation := ⟨0, 0, 0⟩, planeCenter := none,
             confidence := none } ∧
    (startARLoopTick true false
      { isTracking := true, hasFeatures := true, featureCount := 25, planeCount := 1,
        pose := some { position := ⟨1, 0, 0⟩, rotation := ⟨0, 0, 0⟩,
                       planeCenter := none, confidence := none },
        imu := ⟨0, 0, 0⟩ }).modelPose =
      some { position := ⟨1, 0, 0⟩, rotation := ⟨0, 0, 0⟩, planeCenter := none,
             confidence := none } ∧
    (poseKFFilter (poseKFInit 0.01 0.1)
      (some { position := ⟨1, 0, 0⟩, rotation := ⟨0, 0, 0⟩, planeCenter := none,
              confidence := none })).1 ≠
      some { position := ⟨1, 0, 0⟩, rotation := ⟨0, 0, 0⟩, planeCenter := none,
             confidence := none } ∧
    (∀ g : GeoResult, (startLocationLoopTick g).cameraPose = g.pose) := by
  refine ⟨rfl, rfl, ?_, fun g => rfl⟩
  intro hcon
  have hx := congrArg (fun o => (o.map (fun p : Pose => p.position.x)).getD 0) hcon
  simp only [poseKFFilter, poseKFInit, kfInit, kfFilter, kfPredict, kfUpdate,
    Option.map_some, Option.getD_some] at hx
  norm_num at hx

/-! ## Placement -/

/-- C9: `placeModel` ignores the pose argument and re-runs the ray–plane
intersection through the screen center NDC `(0,0)` against the plane with normal
`(0,1,0)` and offset 0; the placed position has `y = 0` exactly and equals the
intersection x/z (or the fixed fallback `(0,0,-2)` when there is no intersection);
the yaw setting is applied and `true` is returned; with no model loaded it returns
`false` and leaves the state unchanged. -/
theorem placeModel_contract (s : SceneState) (pose pose2 : Option Pose) :
    (s.hasModel = false → SceneManager.placeModel s pose = (false, s)) ∧
    (s.hasModel = true →
      (SceneManager.placeModel s pose).1 = true ∧
      (SceneManager.placeModel s pose).2.modelGroupPos.y = 0 ∧
      (SceneManager.placeModel s pose).2.modelGroupRotY =
        degToRad s.modelRotation ∧
      (SceneManager.placeModel s pose).2.isModelPlaced = true ∧
      (SceneManager.placeModel s pose).2.placedPosition =
        (SceneManager.placeModel s pose).2.modelGroupPos ∧
      (∀ p : Vec3, intersectPlane (s.camera (0, 0)) ⟨⟨0, 1, 0⟩, 0⟩ = some p →
        (SceneManager.placeModel s pose).2.modelGroupPos = ⟨p.x, 0, p.z⟩) ∧
      (intersectPlane (s.camera (0, 0)) ⟨⟨0, 1, 0⟩, 0⟩ = none →
        (SceneManager.placeModel s pose).2.modelGroupPos = ⟨0, 0, -2⟩)) ∧
    SceneManager.placeModel s pose = SceneManager.placeModel s pose2 := by
  refine ⟨?_, ?_, rfl⟩
  · intro hm
    unfold SceneManager.placeModel
    rw [if_pos (by simp [hm])]
  · intro hm
    unfold SceneManager.placeModel
    rw [if_neg (by simp [hm])]
    dsimp only
    rcases hI : intersectPlane (s.camera (0, 0)) ⟨⟨0, 1, 0⟩, 0⟩ with _ | p
    · exact ⟨rfl, rfl, rfl, rfl, rfl, fun p hp => by simp at hp, fun _ => rfl⟩
    · refine ⟨rfl, rfl, rfl, rfl, rfl, fun p2 hp2 => ?_, fun hcon => by simp at hcon⟩
      obtain rfl : p = p2 := by simpa using hp2
      rfl

/-- Witness for C9: a camera at `(0, 1.5, 0)` looking toward `(0, 0, -3)` places the
model exactly on the ground plane (`y = 0`). -/
theorem placeModel_contract_witness :
    (SceneManager.placeModel
      { hasModel := true,
        camera := fun _ => { origin := ⟨0, 1.5, 0⟩, dir := ⟨0, -1.5, -3⟩ },
        screenWidth := 800, screenHeight := 600, modelRotation := 45,
        modelGroupPos := ⟨0, 0, 0⟩, modelGroupRotY := 0, modelGroupVisible := false,
        shadowPlaneVisible := false, shadowPlaneX := 0, shadowPlaneZ := 0,
        groundIndicatorVisible := false, gridHelperVisible := false,
        isModelPlaced := false, placedPosition := ⟨0, 0, 0⟩ }
      none).2.modelGroupPos.y = 0 :=
  ((placeModel_contract _ none none).2.1 rfl).2.1

/-! ## Geodesy lemmas -/

theorem arctan_nonneg_of_nonneg {x : ℝ} (h : 0 ≤ x) : 0 ≤ Real.arctan x := by
  have := Real.arctan_strictMono.monotone h
  rwa [Real.arctan_zero] at this

theorem arctan_nonpos_of_nonpos {x : ℝ} (h : x ≤ 0) : Real.arctan x ≤ 0 := by
  have := Real.arctan_strictMono.monotone h
  rwa [Real.arctan_zero] at this

theorem arctan_pos_of_pos {x : ℝ} (h : 0 < x) : 0 < Real.arctan x := by
  have := Real.arctan_strictMono h
  rwa [Real.arctan_zero] at this

theorem atan2_nonneg (y x : ℝ) (hy : 0 ≤ y) : 0 ≤ atan2 y x := by
  unfold atan2
  have hpi := Real.pi_pos
  by_cases h1 : 0 < x
  · rw [if_pos h1]
    exact arctan_nonneg_of_nonneg (div_nonneg hy h1.le)
  · rw [if_neg h1]
    by_cases h2 : x < 0
    · rw [if_pos h2, if_pos hy]
      have := Real.neg_pi_div_two_lt_arctan (y / x)
      linarith
    · rw [if_neg h2]
      by_cases h4 : 0 < y
      · rw [if_pos h4]
        linarith
      · rw [if_neg h4, if_neg (by linarith : ¬ y < 0)]

theorem atan2_mem_Ioc (y x : ℝ) :
    -Real.pi < atan2 y x ∧ atan2 y x ≤ Real.pi := by
  unfold atan2
  have hpi := Real.pi_pos
  have hlt := Real.arctan_lt_pi_div_two (y / x)
  have hgt := Real.neg_pi_div_two_lt_arctan (y / x)
  by_cases h1 : 0 < x
  · rw [if_pos h1]
    constructor <;> linarith
  · rw [if_neg h1]
    by_cases h2 : x < 0
    · rw [if_pos h2]
      by_cases h3 : 0 ≤ y
      · rw [if_pos h3]
        have hyx : y / x ≤ 0 := div_nonpos_of_nonneg_of_nonpos h3 h2.le
        have := arctan_nonpos_of_nonpos hyx
        constructor <;> linarith
      · rw [if_neg h3]
        have hyx : 0 < y / x := div_pos_of_neg_of_neg (lt_of_not_ge h3) h2
        have := arctan_pos_of_pos hyx
        constructor <;> linarith
    · rw [if_neg h2]
      by_cases h4 : 0 < y
      · rw [if_pos h4]
        constructor <;> linarith
      · rw [if_neg h4]
        by_cases h5 : y < 0
        · rw [if_pos h5]
          constructor <;> linarith
        · rw [if_neg h5]
          constructor <;> linarith

theorem atan2_sin_cos {t : ℝ} (h1 : -(Real.pi / 2) < t) (h2 : t < Real.pi / 2) :
    atan2 (Real.sin t) (Real.cos t) = t := by
  have hc : 0 < Real.cos t := Real.cos_pos_of_mem_Ioo ⟨h1, h2⟩
  unfold atan2
  rw [if_pos hc, ← Real.tan_eq_sin_div_cos, Real.arctan_tan h1 h2]

theorem atan2_zero_pos (x : ℝ) (hx : 0 < x) : atan2 0 x = 0 := by
  unfold atan2
  rw [if_pos hx, zero_div, Real.arctan_zero]

theorem atan2_pos_zero (y : ℝ) (hy : 0 < y) : atan2 y 0 = Real.pi / 2 := by
  unfold atan2
  rw [if_neg (lt_irrefl 0), if_neg (lt_irrefl 0), if_pos hy]

theorem jsRem_mem (a b : ℝ) (ha : 0 ≤ a) (hb : 0 < b) :
    0 ≤ jsRem a b ∧ jsRem a b < b := by
  unfold jsRem jsTrunc
  rw [if_pos (div_nonneg ha hb.le)]
  have h1 : (⌊a / b⌋ : ℝ) ≤ a / b := Int.floor_le _
  have h2 : a / b < ⌊a / b⌋ + 1 := Int.lt_floor_add_one _
  have h3 : (⌊a / b⌋ : ℝ) * b ≤ a := (le_div_iff₀ hb).mp h1
  have h4 : a < ((⌊a / b⌋ : ℝ) + 1) * b := (div_lt_iff₀ hb).mp h2
  constructor <;> nlinarith

theorem dist_aux (d : ℝ) (h0 : 0 ≤ d) (h2 : d < Real.pi / 2) :
    2 * atan2 (Real.sqrt (Real.sin d * Real.sin d))
      (Real.sqrt (1 - Real.sin d * Real.sin d)) = 2 * d := by
  have hpi := Real.pi_pos
  have hs : 0 ≤ Real.sin d :=
    Real.sin_nonneg_of_nonneg_of_le_pi h0 (by linarith)
  have hcs : 1 - Real.sin d * Real.sin d = Real.cos d * Real.cos d := by
    have h := Real.sin_sq_add_cos_sq d
    nlinarith [h]
  have hcn : 0 ≤ Real.cos d :=
    Real.cos_nonneg_of_mem_Icc ⟨by linarith, h2.le⟩
  rw [Real.sqrt_mul_self hs, hcs, Real.sqrt_mul_self hcn,
    atan2_sin_cos (by linarith) h2]

theorem calculateDistance_nonneg (lat1 lon1 lat2 lon2 : ℝ) :
    0 ≤ calculateDistance lat1 lon1 lat2 lon2 := by
  unfold calculateDistance
  dsimp only
  refine mul_nonneg (by norm_num) (mul_nonneg (by norm_num) ?_)
  exact atan2_nonneg _ _ (Real.sqrt_nonneg _)

theorem calculateDistance_self (lat lon : ℝ) :
    calculateDistance lat lon lat lon = 0 := by
  unfold calculateDistance
  simp only [sub_self, zero_mul, zero_div, Real.sin_zero, mul_zero, zero_add,
    add_zero, zero_mul]
  rw [Real.sqrt_zero, sub_zero, Real.sqrt_one, atan2_zero_pos 1 one_pos]
  ring

theorem calculateDistance_equator_one_degree :
    calculateDistance 0 0 0 1 = 6371000 * (Real.pi / 180) := by
  have hpi := Real.pi_pos
  unfold calculateDistance
  simp only [sub_self, sub_zero, zero_mul, zero_div, Real.sin_zero, mul_zero,
    zero_add, Real.cos_zero, one_mul]
  have harg : Real.pi / 180 / 2 = Real.pi / 360 := by ring
  rw [harg, dist_aux (Real.pi / 360) (by positivity) (by linarith)]
  ring

theorem calculateDistance_geo_fixture :
    calculateDistance 37 (-122) 37.001 (-122) = 6371000 * (Real.pi / 180000) := by
  have hpi := Real.pi_pos
  unfold calculateDistance
  simp only [sub_self, zero_mul, zero_div, Real.sin_zero, mul_zero, zero_add,
    add_zero]
  have harg : ((37.001 : ℝ) - 37) * Real.pi / 180 / 2 = Real.pi / 360000 := by
    norm_num
    ring
  rw [harg, dist_aux (Real.pi / 360000) (by positivity) (by linarith)]
  ring

/-- C5: `calculateDistance` is nonnegative for all inputs, exactly zero for
identical points, and the distance between `(0,0)` and `(0,1)` is 111,195 m within
±0.5 %. -/
theorem calculateDistance_contract :
    (∀ lat1 lon1 lat2 lon2 : ℝ, 0 ≤ calculateDistance lat1 lon1 lat2 lon2) ∧
    (∀ lat lon : ℝ, calculateDistance lat lon lat lon = 0) ∧
    |calculateDistance 0 0 0 1 - 111195| ≤ 0.005 * 111195 := by
  refine ⟨calculateDistance_nonneg, calculateDistance_self, ?_⟩
  rw [calculateDistance_equator_one_degree, abs_le]
  have hl := Real.pi_gt_d6
  have hu := Real.pi_lt_d6
  norm_num at hl hu ⊢
  constructor <;> nlinarith

theorem calculateBearing_range (lat1 lon1 lat2 lon2 : ℝ) :
    0 ≤ calculateBearing lat1 lon1 lat2 lon2 ∧
    calculateBearing lat1 lon1 lat2 lon2 < 360 := by
  unfold calculateBearing
  dsimp only
  have hpi := Real.pi_pos
  obtain ⟨h1, h2⟩ := atan2_mem_Ioc
    (Real.sin ((lon2 - lon1) * Real.pi / 180) * Real.cos (lat2 * Real.pi / 180))
    (Real.cos (lat1 * Real.pi / 180) * Real.sin (lat2 * Real.pi / 180) -
      Real.sin (lat1 * Real.pi / 180) * Real.cos (lat2 * Real.pi / 180) *
        Real.cos ((lon2 - lon1) * Real.pi / 180))
  refine jsRem_mem _ 360 ?_ (by norm_num)
  have h3 : (-180 : ℝ) ≤ atan2
      (Real.sin ((lon2 - lon1) * Real.pi / 180) * Real.cos (lat2 * Real.pi / 180))
      (Real.cos (lat1 * Real.pi / 180) * Real.sin (lat2 * Real.pi / 180) -
        Real.sin (lat1 * Real.pi / 180) * Real.cos (lat2 * Real.pi / 180) *
          Real.cos ((lon2 - lon1) * Real.pi / 180)) * 180 / Real.pi := by
    rw [le_div_iff₀ hpi]
    nlinarith
  linarith

theorem calculateBearing_north : calculateBearing 0 0 1 0 = 0 := by
  have hpi := Real.pi_pos
  unfold calculateBearing
  norm_num [Real.sin_zero, Real.cos_zero]
  rw [atan2_zero_pos _
    (Real.sin_pos_of_pos_of_lt_pi (by positivity) (by linarith))]
  norm_num [jsRem, jsTrunc, Int.floor_one]

theorem calculateBearing_east : calculateBearing 0 0 0 1 = 90 := by
  have hpi := Real.pi_pos
  unfold calculateBearing
  norm_num [Real.sin_zero, Real.cos_zero]
  rw [atan2_pos_zero _
    (Real.sin_pos_of_pos_of_lt_pi (by positivity) (by linarith))]
  have hv : Real.pi / 2 * 180 / Real.pi + 360 = 450 := by
    field_simp
    ring
  rw [hv]
  have hfloor : ⌊(450 : ℝ) / 360⌋ = 1 := by
    apply Int.floor_eq_iff.mpr
    constructor <;> norm_num
  norm_num [jsRem, jsTrunc, hfloor]

/-- C6: `calculateBearing` always lands in `[0, 360)`; the bearing from `(0,0)` to
`(1,0)` is 0° (due north) and from `(0,0)` to `(0,1)` is 90° (due east). -/
theorem calculateBearing_contract :
    (∀ lat1 lon1 lat2 lon2 : ℝ,
      0 ≤ calculateBearing lat1 lon1 lat2 lon2 ∧
      calculateBearing lat1 lon1 lat2 lon2 < 360) ∧
    calculateBearing 0 0 1 0 = 0 ∧ calculateBearing 0 0 0 1 = 90 :=
  ⟨calculateBearing_range, calculateBearing_north, calculateBearing_east⟩

theorem calculateBearing_geo_fixture :
    calculateBearing 37 (-122) 37.001 (-122) = 0 := by
  have hpi := Real.pi_pos
  unfold calculateBearing
  norm_num [Real.sin_zero, Real.cos_zero]
  have hx : Real.cos (37 * Real.pi / 180) * Real.sin (37001 / 1000 * Real.pi / 180) -
      Real.sin (37 * Real.pi / 180) * Real.cos (37001 / 1000 * Real.pi / 180) =
      Real.sin ((37001 / 1000 : ℝ) * Real.pi / 180 - 37 * Real.pi / 180) := by
    rw [Real.sin_sub]
    ring
  have harg : (37001 / 1000 : ℝ) * Real.pi / 180 - 37 * Real.pi / 180 =
      Real.pi / 180000 := by
    have h1 : (37001 / 1000 : ℝ) * Real.pi / 180 - 37 * Real.pi / 180 =
        ((37001 / 1000 : ℝ) - 37) * (Real.pi / 180) := by ring
    have h2 : (37001 / 1000 : ℝ) - 37 = 1 / 1000 := by norm_num
    rw [h1, h2]
    ring
  rw [hx, harg, atan2_zero_pos _
    (Real.sin_pos_of_pos_of_lt_pi (by positivity) (by linarith))]
  norm_num [jsRem, jsTrunc, Int.floor_one]

theorem updateTracking_iff (s : LocState) (cur : LocationFix) (tgt : TargetLocation)
    (hcur : s.currentLocation = some cur) (htgt : s.targetLocation = some tgt) :
    ((ARLocationEngine.updateTracking s).isTracking = true ↔
      cur.accuracy ≤ s.gpsAccuracyThreshold ∧
      s.minDistance ≤
        calculateDistance cur.latitude cur.longitude tgt.latitude tgt.longitude ∧
      calculateDistance cur.latitude cur.longitude tgt.latitude tgt.longitude ≤
        s.maxDistance) ∧
    (ARLocationEngine.updateTracking s).distance =
      some (calculateDistance cur.latitude cur.longitude tgt.latitude
        tgt.longitude) ∧
    (ARLocationEngine.updateTracking s).bearing =
      some (calculateBearing cur.latitude cur.longitude tgt.latitude
        tgt.longitude) := by
  unfold ARLocationEngine.updateTracking
  rw [hcur, htgt]
  dsimp only
  by_cases hcond : cur.accuracy ≤ s.gpsAccuracyThreshold ∧
      (s.minDistance ≤
          calculateDistance cur.latitude cur.longitude tgt.latitude tgt.longitude ∧
        calculateDistance cur.latitude cur.longitude tgt.latitude tgt.longitude ≤
          s.maxDistance)
  · rw [if_pos hcond]
    exact ⟨⟨fun _ => ⟨hcond.1, hcond.2.1, hcond.2.2⟩, fun _ => rfl⟩, rfl, rfl⟩
  · rw [if_neg hcond]
    refine ⟨⟨fun h => absurd h (by simp), fun h => absurd ⟨h.1, h.2.1, h.2.2⟩
      hcond⟩, rfl, rfl⟩

theorem geo_fixture_eval :
    (ARLocationEngine.updateTracking geoFixtureState).isTracking = true ∧
    (ARLocationEngine.updateTracking geoFixtureState).distance =
      some (6371000 * (Real.pi / 180000)) ∧
    (ARLocationEngine.updateTracking geoFixtureState).bearing = some 0 := by
  have hl := Real.pi_gt_d6
  have hu := Real.pi_lt_d6
  have hiff := updateTracking_iff geoFixtureState
    { latitude := 37, longitude := -122, altitude := some 0, accuracy := 5 }
    { latitude := 37.001, longitude := -122, altitude := 0 } rfl rfl
  have hd := calculateDistance_geo_fixture
  have hb := calculateBearing_geo_fixture
  have htrack : (ARLocationEngine.updateTracking geoFixtureState).isTracking =
      true := by
    apply hiff.1.mpr
    refine ⟨by norm_num [geoFixtureState], ?_, ?_⟩
    · show (geoFixtureState.minDistance : ℝ) ≤ _
      rw [hd]
      norm_num [geoFixtureState] at hl ⊢
      nlinarith
    · show _ ≤ (geoFixtureState.maxDistance : ℝ)
      rw [hd]
      norm_num [geoFixtureState] at hu ⊢
      nlinarith
  refine ⟨htrack, ?_, ?_⟩
  · rw [hiff.2.1]
    dsimp only
    rw [hd]
  · rw [hiff.2.2]
    dsimp only
    rw [hb]

/-- C7: with both a fix and a target, the geodetic tracker reports
`isTracking = true` exactly when the fix accuracy is within the threshold and the
computed distance lies between the minimum and maximum bounds; on the fixture
(fix `(37, -122)`, accuracy 5, target `(37.001, -122, 0)`, default thresholds
50 m / 5 m / 1000 m) it reports distance ≈ 111.2 m (within 0.01), bearing exactly
0°, and `isTracking = true`. -/
theorem geodetic_tracking_contract :
    (∀ (s : LocState) (cur : LocationFix) (tgt : TargetLocation),
      s.currentLocation = some cur → s.targetLocation = some tgt →
      ((ARLocationEngine.updateTracking s).isTracking = true ↔
        cur.accuracy ≤ s.gpsAccuracyThreshold ∧
        s.minDistance ≤
          calculateDistance cur.latitude cur.longitude tgt.latitude tgt.longitude ∧
        calculateDistance cur.latitude cur.longitude tgt.latitude tgt.longitude ≤
          s.maxDistance)) ∧
    (ARLocationEngine.updateTracking geoFixtureState).isTracking = true ∧
    (ARLocationEngine.updateTracking geoFixtureState).bearing = some 0 ∧
    ∃ d : ℝ, (ARLocationEngine.updateTracking geoFixtureState).distance = some d ∧
      |d - 111.2| ≤ 0.01 := by
  refine ⟨fun s cur tgt hcur htgt => (updateTracking_iff s cur tgt hcur htgt).1,
    geo_fixture_eval.1, geo_fixture_eval.2.2,
    6371000 * (Real.pi / 180000), geo_fixture_eval.2.1, ?_⟩
  have hl := Real.pi_gt_d6
  have hu := Real.pi_lt_d6
  rw [abs_le]
  norm_num at hl hu ⊢
  constructor <;> nlinarith

/-- Witness for C7: the general tracking criterion applied to the concrete fixture
state, its location hypotheses discharged definitionally. -/
theorem geodetic_tracking_contract_witness :
    ((ARLocationEngine.updateTracking geoFixtureState).isTracking = true ↔
      (5 : ℝ) ≤ 50 ∧
      (5 : ℝ) ≤ calculateDistance 37 (-122) 37.001 (-122) ∧
      calculateDistance 37 (-122) 37.001 (-122) ≤ 1000) :=
  geodetic_tracking_contract.1 geoFixtureState
    { latitude := 37, longitude := -122, altitude := some 0, accuracy := 5 }
    { latitude := 37.001, longitude := -122, altitude := 0 } rfl rfl

end ARApp
